import Mathlib

/-!
Shallow embedding of the monthly-snapshot finance core of the
llm-finance-assistant repository, together with proofs checking the
specification's claims against it.

Sources embedded:
- `src/database/models.py` (Account, MonthlyAccountSnapshot, Transaction, Category)
- `src/business_logic/snapshot_service.py` (SnapshotService)
- `src/business_logic/mcp.py` (FinanceMCP, in-memory)
- `src/business_logic/mcp_database.py` (FinanceMCPDatabase)
- `src/services/aggregation_service.py` (AggregationService)

Modelling conventions:
- Monetary values (SQL Float columns) are modelled as `Rat`; arithmetic on
  them in the source is ordinary field arithmetic.
- A database table is a list of rows; the SQLAlchemy session is passed
  around explicitly as a `Store` (the two tables the claims touch).
- A fallible storage layer is modelled by `DB`: either a live store
  (`DB.ok`) or a backend failure (`DB.down`); issuing any query against a
  down backend raises, i.e. returns `Except.error DBError.storageError`.
  Methods wrapped in `try/except` in the source absorb that error;
  methods without a handler propagate it.
- Calendar dates are triples (year, month, day); SQL date comparison and
  Python `datetime - timedelta(days=180)` are modelled through the
  proleptic-Gregorian day number `daysFromCivil` (dates compare exactly
  as their day numbers do).
-/

namespace Finance

/-- Calendar date of a transaction row (`transactions.date`). -/
structure Date where
  year : Int
  month : Int
  day : Int
deriving DecidableEq

/-- Row of `monthly_account_snapshots` (`MonthlyAccountSnapshot` in
`src/database/models.py`). -/
structure Snapshot where
  account_id : Int
  year : Int
  month : Int
  starting_balance : Rat
  ending_balance : Rat
  total_income : Rat
  total_expense : Rat
deriving DecidableEq

/-- Row of `transactions` (`Transaction` in `src/database/models.py`). -/
structure Txn where
  id : Int
  account_id : Int
  date : Date
  amount : Rat
  category : String
  description : String
deriving DecidableEq

/-- The persisted state the claims touch: the snapshot table and the
transaction table. -/
structure Store where
  snapshots : List Snapshot
  transactions : List Txn
deriving DecidableEq

/-- Database-layer failure raised into the service code: either the
backend is unavailable (e.g. `sqlalchemy.exc.OperationalError`) or the
engine rejects a malformed query (e.g. `sqlalchemy.exc.ProgrammingError`
for an SQL statement that nests aggregate calls). -/
inductive DBError where
  | storageError
  | nestedAggregate
deriving DecidableEq

/-- A database session: either a live store or a failing backend. -/
inductive DB where
  | ok (store : Store)
  | down

/-- Issuing a query against the session: raises on a down backend. -/
def DB.query : DB → Except DBError Store
  | .ok store => .ok store
  | .down => .error .storageError

/-- Error raised by `SnapshotService.create_snapshot` when a snapshot
already exists for the (account_id, year, month) key (a `ValueError` in
the source). -/
inductive SnapshotError where
  | duplicateSnapshot (account_id year month : Int)
deriving DecidableEq

/-- Proleptic-Gregorian day number of a calendar date (days-from-civil
algorithm); Python `datetime.date` ordering and `timedelta` arithmetic
coincide with ordering and arithmetic on this number. -/
def daysFromCivil (y m d : Int) : Int :=
  let y2 : Int := if m ≤ 2 then y - 1 else y
  let era : Int := Int.fdiv y2 400
  let yoe : Int := y2 - era * 400
  let mp : Int := Int.fmod (m + 9) 12
  let doy : Int := (153 * mp + 2) / 5 + d - 1
  let doe : Int := yoe * 365 + yoe / 4 - yoe / 100 + doy
  era * 146097 + doe - 719468

/-- Day number of a transaction date. -/
def Date.rd (d : Date) : Int := daysFromCivil d.year d.month d.day

namespace SnapshotService

/-- Checks whether a snapshot row with the given key exists
(the `self.db.query(...).first()` existence check in `create_snapshot`). -/
def hasSnapshotKey (snapshots : List Snapshot) (account_id year month : Int) : Bool :=
  snapshots.any (fun s => decide (s.account_id = account_id ∧ s.year = year ∧ s.month = month))

/-- Embeds `SnapshotService.create_snapshot`
(`src/business_logic/snapshot_service.py:99-153`): check-then-insert with
no validation of the month range; on a duplicate key raise, otherwise
persist the new row and return it. -/
def create_snapshot (store : Store) (account_id year month : Int)
    (starting_balance ending_balance total_income total_expense : Rat) :
    Except SnapshotError (Store × Snapshot) :=
  if hasSnapshotKey store.snapshots account_id year month then
    .error (.duplicateSnapshot account_id year month)
  else
    let snapshot : Snapshot :=
      { account_id := account_id, year := year, month := month,
        starting_balance := starting_balance, ending_balance := ending_balance,
        total_income := total_income, total_expense := total_expense }
    .ok ({ store with snapshots := store.snapshots ++ [snapshot] }, snapshot)

/-- Number of snapshot rows with a given (account_id, year, month) key. -/
def countSnapshotKey (store : Store) (account_id year month : Int) : Nat :=
  (store.snapshots.filter
    (fun s => decide (s.account_id = account_id ∧ s.year = year ∧ s.month = month))).length

/-- Embeds `SnapshotService.get_total_balance_for_month`
(`snapshot_service.py:283-304`): SQL sum of `ending_balance` over snapshots
matching (year, month); `result or 0.0` turns the NULL of an empty sum into
0.0.  No `try/except`: a storage error propagates. -/
def get_total_balance_for_month (db : DB) (year month : Int) : Except DBError Rat :=
  (DB.query db).map (fun store =>
    ((store.snapshots.filter (fun s => decide (s.year = year ∧ s.month = month))).map
      (fun s => s.ending_balance)).sum)

/-- Period key `year*100 + month` used by `get_current_total_balance`. -/
def periodKey (s : Snapshot) : Int := s.year * 100 + s.month

/-- The subquery of `get_current_total_balance`: per account, the maximum
of `year*100 + month` over that account's snapshots. -/
def maxPeriod (snapshots : List Snapshot) (account_id : Int) : WithBot Int :=
  ((snapshots.filter (fun s => decide (s.account_id = account_id))).map periodKey).maximum

/-- Embeds `SnapshotService.get_current_total_balance`
(`snapshot_service.py:306-332`): join each snapshot against its account's
maximal period key and sum the `ending_balance` of the joined rows. -/
def get_current_total_balance (db : DB) : Except DBError Rat :=
  (DB.query db).map (fun store =>
    ((store.snapshots.filter
        (fun s => decide (maxPeriod store.snapshots s.account_id = (periodKey s : WithBot Int)))).map
      (fun s => s.ending_balance)).sum)

/-- Embeds `SnapshotService.get_total_expenses_for_month`
(`snapshot_service.py:334-355`). -/
def get_total_expenses_for_month (db : DB) (year month : Int) : Except DBError Rat :=
  (DB.query db).map (fun store =>
    ((store.snapshots.filter (fun s => decide (s.year = year ∧ s.month = month))).map
      (fun s => s.total_expense)).sum)

/-- Embeds `SnapshotService.get_total_income_for_month`
(`snapshot_service.py:357-376`). -/
def get_total_income_for_month (db : DB) (year month : Int) : Except DBError Rat :=
  (DB.query db).map (fun store =>
    ((store.snapshots.filter (fun s => decide (s.year = year ∧ s.month = month))).map
      (fun s => s.total_income)).sum)

/-- Ordering used by `order_by(desc(year), desc(month))`. -/
def periodDescBefore (s t : Snapshot) : Bool :=
  decide (t.year < s.year ∨ (t.year = s.year ∧ t.month ≤ s.month))

/-- Embeds `SnapshotService.get_balance_trend` (`snapshot_service.py:378-405`):
optionally filter to one account, order by period descending, take the
first `num_months` rows.  No `try/except`: a storage error propagates. -/
def get_balance_trend (db : DB) (account_id : Option Int) (num_months : Nat) :
    Except DBError (List Snapshot) :=
  (DB.query db).map (fun store =>
    let snaps :=
      match account_id with
      | none => store.snapshots
      | some aid => store.snapshots.filter (fun s => decide (s.account_id = aid))
    (snaps.mergeSort periodDescBefore).take num_months)

/-- Autoincrement primary key of the transaction table, modelled as one
more than the largest id in use. -/
def nextTxnId (store : Store) : Int :=
  (store.transactions.map (fun t => t.id)).foldr max 0 + 1

/-- Embeds `SnapshotService.add_transaction` (`snapshot_service.py:411-447`):
append a transaction row; snapshots are untouched. -/
def add_transaction (store : Store) (account_id : Int) (date : Date) (amount : Rat)
    (category description : String) : Store × Txn :=
  let t : Txn :=
    { id := nextTxnId store, account_id := account_id, date := date,
      amount := amount, category := category, description := description }
  ({ store with transactions := store.transactions ++ [t] }, t)

end SnapshotService

namespace FinanceMCPDatabase

/-- Embeds `FinanceMCPDatabase.get_balance`
(`src/business_logic/mcp_database.py:140-147`): the current balance as the
sum of the amounts of ALL transaction rows. -/
def get_balance (store : Store) : Rat :=
  (store.transactions.map (fun t => t.amount)).sum

/-- Embeds `FinanceMCPDatabase.delete_transaction`
(`mcp_database.py:122-138`): delete the first row with the given id,
returning whether a row was deleted. -/
def delete_transaction (store : Store) (transaction_id : Int) : Store × Bool :=
  if store.transactions.any (fun t => decide (t.id = transaction_id)) then
    ({ store with
        transactions := store.transactions.eraseP (fun t => decide (t.id = transaction_id)) },
      true)
  else
    (store, false)

end FinanceMCPDatabase

/-- In-memory transaction entry of `FinanceMCP` (`src/business_logic/mcp.py`):
a dict with id, ISO date string, amount, category, description and an
optional currency. -/
structure MemEntry where
  id : Int
  date : String
  amount : Rat
  category : String
  description : String
  currency : Option String
deriving DecidableEq

/-- In-memory state of `FinanceMCP`: the transaction list plus the next id. -/
structure FinanceMCPState where
  transactions : List MemEntry
  next_id : Int
deriving DecidableEq

namespace FinanceMCP

/-- Embeds `FinanceMCP.get_balance` (`src/business_logic/mcp.py:102-108`):
the current balance as the sum of all transaction amounts. -/
def get_balance (st : FinanceMCPState) : Rat :=
  (st.transactions.map (fun e => e.amount)).sum

/-- Embeds `FinanceMCP.add_transaction` (`mcp.py:54-87`); the `date`
defaults to the ambient current day in the source and is therefore taken
as an explicit argument here. -/
def add_transaction (st : FinanceMCPState) (amount : Rat) (category description : String)
    (date : String) (currency : Option String) : FinanceMCPState × MemEntry :=
  let e : MemEntry :=
    { id := st.next_id, date := date, amount := amount,
      category := category, description := description, currency := currency }
  ({ transactions := st.transactions ++ [e], next_id := st.next_id + 1 }, e)

end FinanceMCP

/-- Result triple of `AggregationService.get_monthly_totals`. -/
structure MonthlyTotals where
  total_income : Rat
  total_expense : Rat
  net_savings : Rat
deriving DecidableEq

/-- Result row of `AggregationService.get_category_aggregates`. -/
structure CategoryAggregate where
  category : String
  total : Rat
  count : Nat
deriving DecidableEq

/-- Result entry of `AggregationService.detect_anomalies`. -/
structure Anomaly where
  category : String
  current_amount : Rat
  average_amount : Rat
  deviation_pct : Rat
  is_high : Bool
deriving DecidableEq

/-- Result of `AggregationService.get_month_over_month_delta`. -/
structure MoMDelta where
  income_delta : Rat
  expense_delta : Rat
  net_worth_delta : Rat
  income_pct_change : Rat
  expense_pct_change : Rat
  net_worth_pct_change : Rat
  previous_month : Option Int
  previous_year : Option Int
deriving DecidableEq

/-- Per-month entry of `AggregationService.get_yearly_summary`. -/
structure MonthEntry where
  month : Int
  income : Rat
  expense : Rat
  net_savings : Rat
  net_worth : Rat
deriving DecidableEq

/-- Result of `AggregationService.get_yearly_summary`. -/
structure YearlySummary where
  year : Int
  total_income : Rat
  total_expense : Rat
  net_savings : Rat
  monthly_data : List MonthEntry
  top_expense_categories : List CategoryAggregate
deriving DecidableEq

namespace AggregationService

/-- Embeds `AggregationService.get_monthly_totals`
(`src/services/aggregation_service.py:51-84`): sum income and expense over
the month's snapshots; any internal error degrades to the zero triple. -/
def get_monthly_totals (db : DB) (year month : Int) : MonthlyTotals :=
  match DB.query db with
  | .error _ => { total_income := 0, total_expense := 0, net_savings := 0 }
  | .ok store =>
    let snaps := store.snapshots.filter (fun s => decide (s.year = year ∧ s.month = month))
    let total_income := (snaps.map (fun s => s.total_income)).sum
    let total_expense := (snaps.map (fun s => s.total_expense)).sum
    { total_income := total_income, total_expense := total_expense,
      net_savings := total_income - total_expense }

/-- Embeds `AggregationService.get_net_worth` (`aggregation_service.py:86-111`):
sum of ending balances over the month's snapshots; 0.0 on empty result or
internal error. -/
def get_net_worth (db : DB) (year month : Int) : Rat :=
  match DB.query db with
  | .error _ => 0
  | .ok store =>
    ((store.snapshots.filter (fun s => decide (s.year = year ∧ s.month = month))).map
      (fun s => s.ending_balance)).sum

/-- The `extract(year) == year` (and optional month) filter of
`get_category_aggregates`. -/
def monthFilter (year : Int) (month : Option Int) (t : Txn) : Bool :=
  decide (t.date.year = year) &&
    (match month with
     | none => true
     | some m => decide (t.date.month = m))

/-- Pure body of `get_category_aggregates`
(`aggregation_service.py:113-157`): group the filtered transactions by
category, sum amounts and count rows, order by total descending. -/
def categoryAggregatesOf (store : Store) (year : Int) (month : Option Int) :
    List CategoryAggregate :=
  let txns := store.transactions.filter (monthFilter year month)
  let cats := (txns.map (fun t => t.category)).dedup
  (cats.map (fun c =>
    { category := c,
      total := ((txns.filter (fun t => decide (t.category = c))).map (fun t => t.amount)).sum,
      count := (txns.filter (fun t => decide (t.category = c))).length })).mergeSort
    (fun a b => decide (b.total ≤ a.total))

/-- Embeds `AggregationService.get_category_aggregates`: empty list on
internal error. -/
def get_category_aggregates (db : DB) (year : Int) (month : Option Int) :
    List CategoryAggregate :=
  match DB.query db with
  | .error _ => []
  | .ok store => categoryAggregatesOf store year month

/-- Embeds `AggregationService.get_month_over_month_delta`
(`aggregation_service.py:159-225`): current versus previous period (month 1
rolls over to December of the previous year); each percentage change is
delta/previous*100 guarded by `previous > 0`. -/
def get_month_over_month_delta (db : DB) (year month : Int) : MoMDelta :=
  let current := get_monthly_totals db year month
  let current_net_worth := get_net_worth db year month
  let prev_year := if month = 1 then year - 1 else year
  let prev_month := if month = 1 then 12 else month - 1
  let previous := get_monthly_totals db prev_year prev_month
  let prev_net_worth := get_net_worth db prev_year prev_month
  let income_delta := current.total_income - previous.total_income
  let expense_delta := current.total_expense - previous.total_expense
  let net_worth_delta := current_net_worth - prev_net_worth
  { income_delta := income_delta
    expense_delta := expense_delta
    net_worth_delta := net_worth_delta
    income_pct_change :=
      if 0 < previous.total_income then income_delta / previous.total_income * 100 else 0
    expense_pct_change :=
      if 0 < previous.total_expense then expense_delta / previous.total_expense * 100 else 0
    net_worth_pct_change :=
      if 0 < prev_net_worth then net_worth_delta / prev_net_worth * 100 else 0
    previous_month := some prev_month
    previous_year := some prev_year }

/-- The 180-day historical window of `detect_anomalies`: day numbers in
[first day of (year, month) minus 180, first day of (year, month)). -/
def inWindow (year month : Int) (t : Txn) : Bool :=
  decide (daysFromCivil year month 1 - 180 ≤ t.date.rd ∧ t.date.rd < daysFromCivil year month 1)

/-- Embeds the historical-baseline query of `detect_anomalies`
(`aggregation_service.py:262-279`): executing `.scalar()` on the
`avg(sum(Transaction.amount))` statement grouped by
(extract(year), extract(month)).  The statement nests one aggregate call
inside another, which both engines this repository configures — the
PostgreSQL backend of `src/config/database.py` and the in-memory SQLite
fallback of `src/database/init.py` — reject at execution
("aggregate function calls cannot be nested" / "misuse of aggregate
function"), so the call raises for every store, period and category
instead of producing an average. -/
def historicalAverageQuery (store : Store) (year month : Int) (category : String) :
    Except DBError (Option Rat) :=
  .error .nestedAggregate

/-- Embeds the first loop of `detect_anomalies`
(`aggregation_service.py:253-281`): build the `historical_averages` dict
over the current categories, storing a category only when its queried
average is truthy (non-NULL and nonzero); an exception raised by any
baseline query propagates out of the loop.  Since the baseline query
always raises, this errors whenever at least one category is present. -/
def buildHistoricalAverages (store : Store) (year month : Int) :
    List CategoryAggregate → Except DBError (List (String × Rat))
  | [] => .ok []
  | cd :: rest =>
    match historicalAverageQuery store year month cd.category with
    | .error e => .error e
    | .ok avgOpt =>
      match buildHistoricalAverages store year month rest with
      | .error e => .error e
      | .ok dict =>
        match avgOpt with
        | none => .ok dict
        | some avg => .ok (if avg = 0 then dict else (cd.category, avg) :: dict)

/-- Embeds `AggregationService.detect_anomalies`
(`aggregation_service.py:227-313`): build the historical averages over the
current-month category aggregates — any exception, including the
nested-aggregate rejection the baseline query always trips, is caught by
the method-wide handler, which returns the empty list — then, for each
current-month aggregate, skip non-expenses, look the category up among the
stored averages, and flag it when the absolute current total strictly
exceeds `threshold_multiplier` times the absolute average.  Because the
baseline query raises whenever a category exists, the second loop can only
ever run over an empty category list. -/
def detect_anomalies (db : DB) (year month : Int) (threshold_multiplier : Rat) :
    List Anomaly :=
  match DB.query db with
  | .error _ => []
  | .ok store =>
    let current_categories := categoryAggregatesOf store year (some month)
    match buildHistoricalAverages store year month current_categories with
    | .error _ => []
    | .ok historical_averages =>
      current_categories.filterMap (fun cd =>
        if (0 : Rat) ≤ cd.total then none
        else
          match historical_averages.lookup cd.category with
          | none => none
          | some avg =>
            let avg_abs := |avg|
            let current_abs := |cd.total|
            if avg_abs * threshold_multiplier < current_abs then
              some { category := cd.category, current_amount := cd.total,
                     average_amount := -avg_abs,
                     deviation_pct := (current_abs - avg_abs) / avg_abs * 100,
                     is_high := true }
            else none)

/-- Embeds `AggregationService.get_yearly_summary`
(`aggregation_service.py:315-372`): per-month totals and net worth for the
12 months, yearly sums, and the top five expense categories by absolute
total. -/
def get_yearly_summary (db : DB) (year : Int) : YearlySummary :=
  let monthly_data := (List.range 12).map (fun i =>
    let month : Int := (i : Int) + 1
    let totals := get_monthly_totals db year month
    let net_worth := get_net_worth db year month
    { month := month, income := totals.total_income, expense := totals.total_expense,
      net_savings := totals.net_savings, net_worth := net_worth : MonthEntry })
  let yearly_income := (monthly_data.map (fun m => m.income)).sum
  let yearly_expense := (monthly_data.map (fun m => m.expense)).sum
  let categories := get_category_aggregates db year none
  let expense_categories := categories.filter (fun c => decide (c.total < 0))
  let top_expenses :=
    (expense_categories.mergeSort (fun a b => decide (|b.total| ≤ |a.total|))).take 5
  { year := year, total_income := yearly_income, total_expense := yearly_expense,
    net_savings := yearly_income - yearly_expense, monthly_data := monthly_data,
    top_expense_categories := top_expenses }

end AggregationService

/-!
Specification-side definitions.  These follow the wording of the spec
(section 4.2 and section 8) rather than the source, and exist to be
compared with the source-derived definitions above.
-/

/-- Strict lexicographic order on (year, month) pairs, as used by the
spec's phrase "lexicographically-greatest (year, month)". -/
def lexLt (a b : Int × Int) : Prop :=
  a.1 < b.1 ∨ (a.1 = b.1 ∧ a.2 < b.2)

instance (a b : Int × Int) : Decidable (lexLt a b) := by
  unfold lexLt
  exact inferInstance

/-- The snapshot of a list with the lexicographically-greatest
(year, month), when the list is nonempty (later duplicates of the maximal
period, which the uniqueness invariant rules out, would be ignored). -/
def specLatest : List Snapshot → Option Snapshot
  | [] => none
  | s :: rest =>
    match specLatest rest with
    | none => some s
    | some t => if lexLt (t.year, t.month) (s.year, s.month) then some s else some t

/-- The distinct account ids appearing among the snapshots: the spec's
"accounts with at least one snapshot". -/
def accountIds (snapshots : List Snapshot) : List Int :=
  (snapshots.map (fun s => s.account_id)).dedup

/-- Ending balance of an account's lexicographically-latest snapshot
(0 for an account with no snapshots, which the spec says contributes
nothing). -/
def latestEnding (snapshots : List Snapshot) (account_id : Int) : Rat :=
  match specLatest (snapshots.filter (fun s => decide (s.account_id = account_id))) with
  | none => 0
  | some s => s.ending_balance

/-- Modelled from the spec: "the sum, over all accounts with ≥1 snapshot,
of the ending_balance of each account's snapshot with the
lexicographically-greatest (year, month)". -/
def specCurrentTotalBalance (snapshots : List Snapshot) : Rat :=
  ((accountIds snapshots).map (latestEnding snapshots)).sum

/-- Current-month transaction total of one category: the sum of the
amounts of the transactions of that category whose date falls in the
given calendar month. -/
def currentCategoryTotal (store : Store) (year month : Int) (category : String) : Rat :=
  ((store.transactions.filter
      (fun t => AggregationService.monthFilter year (some month) t &&
        decide (t.category = category))).map (fun t => t.amount)).sum

/-- Modelled from the spec: the historical baseline `detect_anomalies` is
specified to compute — "the average of per-month category totals over the
preceding ~6 months (date window: current month's first day minus 180
days, up to the current month's first day, exclusive)" — which is also
what the source comment at `aggregation_service.py:275` intends its query
to mean; `none` when the window holds no transaction of the category.
The program never actually obtains this value: its nested-aggregate query
(`historicalAverageQuery`) raises instead. -/
def specHistoricalAverage (store : Store) (year month : Int) (category : String) :
    Option Rat :=
  let hist := store.transactions.filter
    (fun t => decide (t.category = category) && AggregationService.inWindow year month t)
  let months := (hist.map (fun t => (t.date.year, t.date.month))).dedup
  if months = [] then none
  else
    some (((months.map (fun p =>
      ((hist.filter (fun t => decide (t.date.year = p.1 ∧ t.date.month = p.2))).map
        (fun t => t.amount)).sum)).sum) / (months.length : Rat))

/-!
Helper lemmas.
-/

/-- A snapshot-key existence check succeeds exactly when a row with the key
is present. -/
theorem hasSnapshotKey_eq_true_iff (l : List Snapshot) (aid y m : Int) :
    SnapshotService.hasSnapshotKey l aid y m = true ↔
      ∃ s ∈ l, s.account_id = aid ∧ s.year = y ∧ s.month = m := by
  simp [SnapshotService.hasSnapshotKey, List.any_eq_true]

/-- Summing a list of zeros gives zero. -/
theorem sum_map_const_zero {β : Type} (D : List β) : (D.map (fun _ => (0 : Rat))).sum = 0 := by
  induction D with
  | nil => rfl
  | cons d D ih => simp [ih]

/-- Summing over a duplicate-free index list after bumping the value at one
index by `c` bumps the total by `c`. -/
theorem sum_map_update (c : Rat) :
    ∀ (D : List Int) (b0 : Int) (g1 g2 : Int → Rat),
      D.Nodup → b0 ∈ D → g1 b0 = c + g2 b0 → (∀ b ∈ D, b ≠ b0 → g1 b = g2 b) →
      (D.map g1).sum = c + (D.map g2).sum := by
  intro D
  induction D with
  | nil => intro b0 g1 g2 _ hb; exact absurd hb (List.not_mem_nil b0)
  | cons d D ih =>
    intro b0 g1 g2 hnd hb h0 hrest
    rw [List.nodup_cons] at hnd
    rcases List.mem_cons.mp hb with heq | hmem
    · subst heq
      have hmap : D.map g1 = D.map g2 := List.map_congr_left (fun b hbmem =>
        hrest b (List.mem_cons_of_mem _ hbmem) (fun hbe => hnd.1 (hbe ▸ hbmem)))
      simp only [List.map_cons, List.sum_cons, h0, hmap]
      ring
    · have hd_ne : d ≠ b0 := fun hde => hnd.1 (hde ▸ hmem)
      have h1 : g1 d = g2 d := hrest d (List.mem_cons_self d D) hd_ne
      have h2 := ih b0 g1 g2 hnd.2 hmem h0
        (fun b hbm hbne => hrest b (List.mem_cons_of_mem _ hbm) hbne)
      simp only [List.map_cons, List.sum_cons, h1, h2]
      ring

/-- A list sum equals the sum, over any duplicate-free index list covering
all keys, of the per-key fiber sums. -/
theorem sum_fiberwise_by_key {α : Type} (k : α → Int) (f : α → Rat) :
    ∀ (l : List α) (D : List Int), D.Nodup → (∀ x ∈ l, k x ∈ D) →
      (l.map f).sum =
        (D.map (fun b => ((l.filter (fun x => decide (k x = b))).map f).sum)).sum := by
  intro l
  induction l with
  | nil => intro D _ _; simp [sum_map_const_zero]
  | cons a l ih =>
    intro D hD hcov
    have hka : k a ∈ D := hcov a (List.mem_cons_self a l)
    have hcov2 : ∀ x ∈ l, k x ∈ D := fun x hx => hcov x (List.mem_cons_of_mem a hx)
    rw [List.map_cons, List.sum_cons, ih D hD hcov2]
    symm
    apply sum_map_update (f a) D (k a) _ _ hD hka
    · simp [List.filter_cons]
    · intro b hbD hbne
      have hne : ¬ (k a = b) := fun h => hbne h.symm
      simp [List.filter_cons, hne]

/-- When no two elements of a list jointly satisfy a predicate, filtering by
that predicate around a known solution yields exactly that solution. -/
theorem filter_eq_singleton_of_pairwise {α : Type} (q : α → Bool) :
    ∀ (l : List α), l.Pairwise (fun a b => q a = true → q b = true → False) →
      ∀ s ∈ l, q s = true → l.filter q = [s] := by
  intro l
  induction l with
  | nil => intro _ s hs; exact absurd hs (List.not_mem_nil s)
  | cons a l ih =>
    intro hpw s hs hq
    rw [List.pairwise_cons] at hpw
    rcases List.mem_cons.mp hs with hsa | hsl
    · subst hsa
      have hnone : ∀ b ∈ l, ¬ (q b = true) := fun b hb hqb => hpw.1 b hb hq hqb
      rw [List.filter_cons, if_pos hq, List.filter_eq_nil_iff.mpr hnone]
    · have hqa : ¬ (q a = true) := fun hqa => hpw.1 s hsl hqa hq
      rw [List.filter_cons, if_neg hqa]
      exact ih hpw.2 s hsl hq

/-- The lexicographic order on (year, month) pairs is irreflexive. -/
theorem lexLt_irrefl (a : Int × Int) : ¬ lexLt a a := by
  unfold lexLt
  omega

/-- The lexicographic order on (year, month) pairs is transitive. -/
theorem lexLt_trans (a b c : Int × Int) : lexLt a b → lexLt b c → lexLt a c := by
  unfold lexLt
  omega

/-- `specLatest` answers `none` exactly on the empty list. -/
theorem specLatest_eq_none : ∀ l : List Snapshot, specLatest l = none ↔ l = [] := by
  intro l
  cases l with
  | nil => simp [specLatest]
  | cons s rest =>
    simp only [specLatest]
    cases hr : specLatest rest with
    | none => simp
    | some t =>
      by_cases hlt : lexLt (t.year, t.month) (s.year, s.month) <;> simp [hlt]

/-- `specLatest` answers an element of the list. -/
theorem specLatest_mem : ∀ (l : List Snapshot) (t : Snapshot), specLatest l = some t → t ∈ l := by
  intro l
  induction l with
  | nil => intro t h; simp [specLatest] at h
  | cons s rest ih =>
    intro t h
    cases hr : specLatest rest with
    | none =>
      simp only [specLatest, hr] at h
      exact (Option.some.inj h) ▸ List.mem_cons_self s rest
    | some u =>
      simp only [specLatest, hr] at h
      by_cases hlt : lexLt (u.year, u.month) (s.year, s.month)
      · rw [if_pos hlt] at h
        exact (Option.some.inj h) ▸ List.mem_cons_self s rest
      · rw [if_neg hlt] at h
        exact List.mem_cons_of_mem s ((Option.some.inj h) ▸ ih u hr)

/-- The element `specLatest` answers is lexicographically maximal. -/
theorem specLatest_max : ∀ (l : List Snapshot) (t : Snapshot), specLatest l = some t →
    ∀ u ∈ l, ¬ lexLt (t.year, t.month) (u.year, u.month) := by
  intro l
  induction l with
  | nil => intro t _ u hu; exact absurd hu (List.not_mem_nil u)
  | cons s rest ih =>
    intro t h u hu
    cases hr : specLatest rest with
    | none =>
      simp only [specLatest, hr] at h
      have hrest : rest = [] := (specLatest_eq_none rest).mp hr
      have hts : t = s := (Option.some.inj h).symm
      subst hts
      rcases List.mem_cons.mp hu with hus | hur
      · subst hus; exact lexLt_irrefl _
      · rw [hrest] at hur; exact absurd hur (List.not_mem_nil u)
    | some v =>
      simp only [specLatest, hr] at h
      by_cases hlt : lexLt (v.year, v.month) (s.year, s.month)
      · rw [if_pos hlt] at h
        have hts : t = s := (Option.some.inj h).symm
        subst hts
        rcases List.mem_cons.mp hu with hus | hur
        · subst hus; exact lexLt_irrefl _
        · intro hcon
          exact ih v hr u hur (lexLt_trans _ _ _ hlt hcon)
      · rw [if_neg hlt] at h
        have htv : t = v := (Option.some.inj h).symm
        subst htv
        rcases List.mem_cons.mp hu with hus | hur
        · subst hus; exact hlt
        · exact ih t hr u hur

/-- With months in [1,12], failing the strict lexicographic comparison
forces the period keys into the matching order. -/
theorem key_le_of_not_lexLt (uy um ty tm2 : Int)
    (hu1 : 1 ≤ um) (hu2 : um ≤ 12) (ht1 : 1 ≤ tm2) (ht2 : tm2 ≤ 12)
    (h : ¬ lexLt (ty, tm2) (uy, um)) : uy * 100 + um ≤ ty * 100 + tm2 := by
  unfold lexLt at h
  simp only [Prod.fst, Prod.snd] at h
  omega

/-- With months in [1,12], equal period keys force equal (year, month). -/
theorem key_eq_iff_of_bounds (y1 m1 y2 m2 : Int) (h1 : 1 ≤ m1) (h2 : m1 ≤ 12)
    (h3 : 1 ≤ m2) (h4 : m2 ≤ 12) :
    y1 * 100 + m1 = y2 * 100 + m2 ↔ (y1 = y2 ∧ m1 = m2) := by omega

/-- Core of the current-balance refinement: the SQL-style max-period join
sum equals the spec's per-account lexicographic-latest sum, assuming the
data-model month range and the per-account (year, month) uniqueness
invariant. -/
theorem currentTotal_eq_spec_aux (snaps : List Snapshot)
    (hm : ∀ s ∈ snaps, 1 ≤ s.month ∧ s.month ≤ 12)
    (hu : snaps.Pairwise (fun s t =>
      s.account_id = t.account_id → s.year = t.year → s.month = t.month → False)) :
    ((snaps.filter (fun s =>
        decide (SnapshotService.maxPeriod snaps s.account_id =
          (SnapshotService.periodKey s : WithBot Int)))).map
      (fun s => s.ending_balance)).sum = specCurrentTotalBalance snaps := by
  have hD : (accountIds snaps).Nodup := List.nodup_dedup _
  have hcov : ∀ x ∈ snaps.filter (fun s =>
      decide (SnapshotService.maxPeriod snaps s.account_id =
        (SnapshotService.periodKey s : WithBot Int))), x.account_id ∈ accountIds snaps := by
    intro x hx
    have hxs : x ∈ snaps := List.mem_of_mem_filter hx
    exact List.mem_dedup.mpr (List.mem_map.mpr ⟨x, hxs, rfl⟩)
  rw [sum_fiberwise_by_key (fun (s : Snapshot) => s.account_id)
    (fun (s : Snapshot) => s.ending_balance) _ (accountIds snaps) hD hcov]
  unfold specCurrentTotalBalance
  apply congrArg List.sum
  apply List.map_congr_left
  intro aid haid
  -- the fiber of `aid` inside the joined rows is that account's group
  -- filtered by the max-period condition
  have hswap :
      (snaps.filter (fun s =>
        decide (SnapshotService.maxPeriod snaps s.account_id =
          (SnapshotService.periodKey s : WithBot Int)))).filter
            (fun x => decide (x.account_id = aid)) =
      (snaps.filter (fun s => decide (s.account_id = aid))).filter
        (fun s => decide (SnapshotService.maxPeriod snaps s.account_id =
          (SnapshotService.periodKey s : WithBot Int))) := by
    rw [List.filter_filter, List.filter_filter]
    exact List.filter_congr (fun x _ => Bool.and_comm _ _)
  rw [hswap]
  -- the account's group is nonempty, so it has a lexicographically-latest row
  have hgr_ne : snaps.filter (fun s => decide (s.account_id = aid)) ≠ [] := by
    obtain ⟨x, hxs, hxe⟩ := List.mem_map.mp (List.mem_dedup.mp haid)
    intro hnil
    have hxg : x ∈ snaps.filter (fun s => decide (s.account_id = aid)) := by
      rw [List.mem_filter]
      exact ⟨hxs, by simp [hxe]⟩
    rw [hnil] at hxg
    exact absurd hxg (List.not_mem_nil x)
  obtain ⟨t, ht⟩ : ∃ t, specLatest (snaps.filter (fun s => decide (s.account_id = aid))) =
      some t := by
    cases hsl : specLatest (snaps.filter (fun s => decide (s.account_id = aid))) with
    | none => exact absurd ((specLatest_eq_none _).mp hsl) hgr_ne
    | some t => exact ⟨t, rfl⟩
  have htg : t ∈ snaps.filter (fun s => decide (s.account_id = aid)) := specLatest_mem _ t ht
  have htsnaps : t ∈ snaps := List.mem_of_mem_filter htg
  have htaid : t.account_id = aid := by
    have := (List.mem_filter.mp htg).2
    simpa using this
  -- the group's maximum period key is the key of the latest row
  have hmax : SnapshotService.maxPeriod snaps aid =
      (SnapshotService.periodKey t : WithBot Int) := by
    unfold SnapshotService.maxPeriod
    rw [List.maximum_eq_coe_iff]
    constructor
    · exact List.mem_map.mpr ⟨t, htg, rfl⟩
    · intro b hb
      obtain ⟨u, hug, hue⟩ := List.mem_map.mp hb
      have husnaps : u ∈ snaps := List.mem_of_mem_filter hug
      have hnl := specLatest_max _ t ht u hug
      have hub := hm u husnaps
      have htb := hm t htsnaps
      rw [← hue]
      exact key_le_of_not_lexLt u.year u.month t.year t.month hub.1 hub.2 htb.1 htb.2 hnl
  -- rows of the group passing the join condition cannot be two distinct rows
  have hpw : (snaps.filter (fun s => decide (s.account_id = aid))).Pairwise
      (fun a b => (decide (SnapshotService.maxPeriod snaps a.account_id =
          (SnapshotService.periodKey a : WithBot Int)) = true) →
        (decide (SnapshotService.maxPeriod snaps b.account_id =
          (SnapshotService.periodKey b : WithBot Int)) = true) → False) := by
    have hgpw : (snaps.filter (fun s => decide (s.account_id = aid))).Pairwise
        (fun s t => s.account_id = t.account_id → s.year = t.year → s.month = t.month →
          False) :=
      List.Pairwise.sublist (List.filter_sublist snaps) hu
    apply List.Pairwise.imp_of_mem ?_ hgpw
    intro a b ha hb hR hpa hpb
    have haaid : a.account_id = aid := by have := (List.mem_filter.mp ha).2; simpa using this
    have hbaid : b.account_id = aid := by have := (List.mem_filter.mp hb).2; simpa using this
    have hka : SnapshotService.maxPeriod snaps aid =
        (SnapshotService.periodKey a : WithBot Int) := by
      rw [← haaid]; exact of_decide_eq_true hpa
    have hkb : SnapshotService.maxPeriod snaps aid =
        (SnapshotService.periodKey b : WithBot Int) := by
      rw [← hbaid]; exact of_decide_eq_true hpb
    have hkey : SnapshotService.periodKey a = SnapshotService.periodKey b := by
      have := hka.symm.trans hkb
      exact WithBot.coe_inj.mp this
    have hma := hm a (List.mem_of_mem_filter ha)
    have hmb := hm b (List.mem_of_mem_filter hb)
    unfold SnapshotService.periodKey at hkey
    have hym := (key_eq_iff_of_bounds a.year a.month b.year b.month
      hma.1 hma.2 hmb.1 hmb.2).mp hkey
    exact hR (haaid.trans hbaid.symm) hym.1 hym.2
  -- hence the filtered group is exactly the latest row
  have hqt : (decide (SnapshotService.maxPeriod snaps t.account_id =
      (SnapshotService.periodKey t : WithBot Int)) : Bool) = true := by
    rw [htaid]
    exact decide_eq_true hmax
  have hsingle := filter_eq_singleton_of_pairwise _ _ hpw t htg hqt
  rw [hsingle]
  unfold latestEnding
  rw [ht]
  simp

/-- C3: `get_current_total_balance` equals the sum, over the accounts with
at least one snapshot, of the ending balance of each account's snapshot
with the lexicographically-greatest (year, month), given the data-model
range month ∈ [1,12] and the per-account (year, month) uniqueness
invariant; accounts with no snapshots contribute nothing and the empty
store yields 0. -/
theorem current_total_balance_spec (store : Store)
    (hm : ∀ s ∈ store.snapshots, 1 ≤ s.month ∧ s.month ≤ 12)
    (hu : store.snapshots.Pairwise (fun s t =>
      s.account_id = t.account_id → s.year = t.year → s.month = t.month → False)) :
    SnapshotService.get_current_total_balance (DB.ok store) =
      .ok (specCurrentTotalBalance store.snapshots) := by
  unfold SnapshotService.get_current_total_balance
  simp only [DB.query, Except.map]
  exact congrArg Except.ok (currentTotal_eq_spec_aux store.snapshots hm hu)

/-- C3 witness: a three-snapshot store over two accounts realises the
refinement at a concrete input (the latest rows being (2026,1) for
account 1 and (2025,11) for account 2). -/
theorem current_total_balance_spec_witness :
    SnapshotService.get_current_total_balance
        (DB.ok { snapshots :=
                   [⟨1, 2025, 12, 2000, 2500, 3000, 2500⟩,
                    ⟨1, 2026, 1, 2500, 3200, 3500, 2800⟩,
                    ⟨2, 2025, 11, 0, 100, 0, 0⟩],
                 transactions := [] }) =
      .ok (specCurrentTotalBalance
        [⟨1, 2025, 12, 2000, 2500, 3000, 2500⟩,
         ⟨1, 2026, 1, 2500, 3200, 3500, 2800⟩,
         ⟨2, 2025, 11, 0, 100, 0, 0⟩]) :=
  current_total_balance_spec
    { snapshots :=
        [⟨1, 2025, 12, 2000, 2500, 3000, 2500⟩,
         ⟨1, 2026, 1, 2500, 3200, 3500, 2800⟩,
         ⟨2, 2025, 11, 0, 100, 0, 0⟩],
      transactions := [] }
    (by decide) (by decide)

/-- With a live store, `detect_anomalies` still returns the empty list:
with no current-month categories both of its loops iterate zero times,
and with at least one category the first baseline query raises the
nested-aggregate error, which the method-wide handler converts into the
empty default. -/
theorem detect_anomalies_ok_eq_nil (store : Store) (year month : Int) (tm : Rat) :
    AggregationService.detect_anomalies (DB.ok store) year month tm = [] := by
  simp only [AggregationService.detect_anomalies, DB.query]
  cases hc : AggregationService.categoryAggregatesOf store year (some month) with
  | nil => simp [AggregationService.buildHistoricalAverages]
  | cons cd rest =>
    simp [AggregationService.buildHistoricalAverages,
      AggregationService.historicalAverageQuery]

/-- Store exercising the anomaly-detection bug: a 100-euro July food spend
against a single 40-euro June food spend inside the 180-day window — the
textbook situation the anomaly detector is documented to flag. -/
def w10Store : Store :=
  { snapshots := [],
    transactions :=
      [⟨1, 1, ⟨2025, 7, 10⟩, -100, "food", "groceries"⟩,
       ⟨2, 1, ⟨2025, 6, 10⟩, -40, "food", "groceries"⟩] }

/-- July's food total of `w10Store`. -/
theorem w10_currentTotal : currentCategoryTotal w10Store 2025 7 ("food") = -100 := by
  unfold currentCategoryTotal w10Store
  norm_num [AggregationService.monthFilter, List.filter_cons]

/-- The intended (spec-side) baseline of `w10Store` for food in July 2025:
one window month (June) totalling -40. -/
theorem w10_specHistoricalAvg :
    specHistoricalAverage w10Store 2025 7 ("food") = some (-40) := by
  unfold specHistoricalAverage w10Store
  simp +decide [List.filter_cons, List.dedup_cons_of_not_mem, List.dedup_nil]

/-- C6 (code bug): on `w10Store` the food category satisfies all three of
the claim's flagging conditions — it is an expense, the specified 180-day
baseline exists (average -40), and the absolute current total exceeds 1.5
times the absolute average — yet `detect_anomalies` returns the empty
list: its nested-aggregate baseline query raises on both configured
engines and the method-wide handler swallows the error, so nothing is
ever flagged. -/
theorem detect_anomalies_never_flags_bug :
    AggregationService.detect_anomalies (DB.ok w10Store) 2025 7 (3/2) = [] ∧
    currentCategoryTotal w10Store 2025 7 ("food") < 0 ∧
    specHistoricalAverage w10Store 2025 7 ("food") = some (-40) ∧
    (3/2 : Rat) * |(-40 : Rat)| < |currentCategoryTotal w10Store 2025 7 ("food")| := by
  refine ⟨detect_anomalies_ok_eq_nil w10Store 2025 7 (3/2), ?_, w10_specHistoricalAvg, ?_⟩
  · rw [w10_currentTotal]; norm_num
  · rw [w10_currentTotal]; norm_num

/-- C1: for every (account_id, year, month) key with no existing row,
`create_snapshot` succeeds, persists and returns the created record; a
second call with the same key fails with the duplicate-snapshot
constraint-violation error, and after it exactly one row exists for the
key. -/
theorem create_snapshot_duplicate_key (store : Store) (account_id year month : Int)
    (sb eb ti te : Rat)
    (hfresh : SnapshotService.countSnapshotKey store account_id year month = 0) :
    ∃ store2 snap,
      SnapshotService.create_snapshot store account_id year month sb eb ti te =
        .ok (store2, snap) ∧
      snap = { account_id := account_id, year := year, month := month,
               starting_balance := sb, ending_balance := eb,
               total_income := ti, total_expense := te } ∧
      (∀ sb2 eb2 ti2 te2 : Rat,
        SnapshotService.create_snapshot store2 account_id year month sb2 eb2 ti2 te2 =
          .error (.duplicateSnapshot account_id year month)) ∧
      SnapshotService.countSnapshotKey store2 account_id year month = 1 := by
  have hfilter :
      store.snapshots.filter
        (fun s => decide (s.account_id = account_id ∧ s.year = year ∧ s.month = month)) = [] := by
    have h := hfresh
    unfold SnapshotService.countSnapshotKey at h
    exact List.length_eq_zero.mp h
  have hno : SnapshotService.hasSnapshotKey store.snapshots account_id year month = false := by
    rw [Bool.eq_false_iff]
    intro htrue
    obtain ⟨s, hs, hkey⟩ := (hasSnapshotKey_eq_true_iff _ _ _ _).mp htrue
    have hmem : s ∈ store.snapshots.filter
        (fun s => decide (s.account_id = account_id ∧ s.year = year ∧ s.month = month)) := by
      rw [List.mem_filter]
      exact ⟨hs, by simpa using hkey⟩
    rw [hfilter] at hmem
    exact absurd hmem (List.not_mem_nil s)
  refine ⟨{ store with snapshots :=
      store.snapshots ++ [⟨account_id, year, month, sb, eb, ti, te⟩] },
    ⟨account_id, year, month, sb, eb, ti, te⟩, ?_, rfl, ?_, ?_⟩
  · unfold SnapshotService.create_snapshot
    rw [hno]
    simp
  · intro sb2 eb2 ti2 te2
    have hdup : SnapshotService.hasSnapshotKey
        (store.snapshots ++ [(⟨account_id, year, month, sb, eb, ti, te⟩ : Snapshot)])
          account_id year month = true := by
      rw [hasSnapshotKey_eq_true_iff]
      exact ⟨⟨account_id, year, month, sb, eb, ti, te⟩, by simp, rfl, rfl, rfl⟩
    unfold SnapshotService.create_snapshot
    rw [hdup]
    simp
  · unfold SnapshotService.countSnapshotKey
    simp only [List.filter_append, hfilter, List.nil_append]
    simp

/-- C1 witness: on the empty store the duplicate-key behaviour is realised
at the concrete key (1, 2026, 1). -/
theorem create_snapshot_duplicate_key_witness :
    ∃ store2 snap,
      SnapshotService.create_snapshot { snapshots := [], transactions := [] } 1 2026 1
          2500 3200 3500 2800 = .ok (store2, snap) ∧
      snap = { account_id := 1, year := 2026, month := 1, starting_balance := 2500,
               ending_balance := 3200, total_income := 3500, total_expense := 2800 } ∧
      (∀ sb2 eb2 ti2 te2 : Rat,
        SnapshotService.create_snapshot store2 1 2026 1 sb2 eb2 ti2 te2 =
          .error (.duplicateSnapshot 1 2026 1)) ∧
      SnapshotService.countSnapshotKey store2 1 2026 1 = 1 :=
  create_snapshot_duplicate_key { snapshots := [], transactions := [] } 1 2026 1
    2500 3200 3500 2800 rfl

/-- C7: the triple returned by `get_monthly_totals` always satisfies
net_savings = total_income - total_expense, for every session (including a
failing backend, whose zero triple satisfies it) and every (year, month). -/
theorem monthly_totals_net_savings (db : DB) (year month : Int) :
    (AggregationService.get_monthly_totals db year month).net_savings =
      (AggregationService.get_monthly_totals db year month).total_income -
        (AggregationService.get_monthly_totals db year month).total_expense := by
  cases db <;> simp [AggregationService.get_monthly_totals, DB.query]

/-- C8 counterexample: `create_snapshot` accepts month 13 — the call is not
rejected as an input error; it persists a row with the out-of-range month. -/
theorem create_snapshot_month13_counterexample :
    SnapshotService.create_snapshot { snapshots := [], transactions := [] } 1 2025 13 0 0 0 0 =
      Except.ok
        ({ snapshots := [⟨1, 2025, 13, 0, 0, 0, 0⟩], transactions := [] },
          ⟨1, 2025, 13, 0, 0, 0, 0⟩) := rfl

/-- C8 amended: `create_snapshot` performs no month-range validation: for
any month value whatsoever (in range or not), when no row with the key
exists the call succeeds and persists a row carrying exactly that month. -/
theorem create_snapshot_no_month_validation (store : Store) (account_id year month : Int)
    (sb eb ti te : Rat)
    (hfresh : SnapshotService.hasSnapshotKey store.snapshots account_id year month = false) :
    ∃ snap : Snapshot,
      SnapshotService.create_snapshot store account_id year month sb eb ti te =
        .ok ({ store with snapshots := store.snapshots ++ [snap] }, snap) ∧
      snap.account_id = account_id ∧ snap.year = year ∧ snap.month = month := by
  refine ⟨⟨account_id, year, month, sb, eb, ti, te⟩, ?_, rfl, rfl, rfl⟩
  unfold SnapshotService.create_snapshot
  rw [hfresh]
  simp

/-- C8 amended witness: the out-of-range month 13 is accepted on the empty
store. -/
theorem create_snapshot_no_month_validation_witness :
    ∃ snap : Snapshot,
      SnapshotService.create_snapshot { snapshots := [], transactions := [] } 7 2025 13
          10 20 30 40 =
        .ok ({ snapshots := [] ++ [snap], transactions := [] }, snap) ∧
      snap.account_id = 7 ∧ snap.year = 2025 ∧ snap.month = 13 :=
  create_snapshot_no_month_validation { snapshots := [], transactions := [] } 7 2025 13
    10 20 30 40 rfl

/-- C9: for a (year, month) with no matching snapshot rows, the three
period-total queries of the snapshot service answer `0.0` (not an absent
result, not an error), and `get_net_worth` answers `0.0`. -/
theorem period_queries_zero_on_empty_month (store : Store) (year month : Int)
    (h : ∀ s ∈ store.snapshots, ¬(s.year = year ∧ s.month = month)) :
    SnapshotService.get_total_balance_for_month (DB.ok store) year month = .ok 0 ∧
    SnapshotService.get_total_expenses_for_month (DB.ok store) year month = .ok 0 ∧
    SnapshotService.get_total_income_for_month (DB.ok store) year month = .ok 0 ∧
    AggregationService.get_net_worth (DB.ok store) year month = 0 := by
  have hf : store.snapshots.filter
      (fun s => decide (s.year = year) && decide (s.month = month)) = [] :=
    List.filter_eq_nil_iff.mpr (by intro s hs; simpa using h s hs)
  refine ⟨?_, ?_, ?_, ?_⟩ <;>
    simp [SnapshotService.get_total_balance_for_month,
      SnapshotService.get_total_expenses_for_month,
      SnapshotService.get_total_income_for_month,
      AggregationService.get_net_worth, DB.query, Except.map, hf]

/-- C9 witness: a store holding only a December 2025 snapshot answers zero
for January 2026. -/
theorem period_queries_zero_on_empty_month_witness :
    SnapshotService.get_total_balance_for_month
        (DB.ok { snapshots := [⟨1, 2025, 12, 2000, 2500, 3000, 2500⟩], transactions := [] })
        2026 1 = .ok 0 ∧
    SnapshotService.get_total_expenses_for_month
        (DB.ok { snapshots := [⟨1, 2025, 12, 2000, 2500, 3000, 2500⟩], transactions := [] })
        2026 1 = .ok 0 ∧
    SnapshotService.get_total_income_for_month
        (DB.ok { snapshots := [⟨1, 2025, 12, 2000, 2500, 3000, 2500⟩], transactions := [] })
        2026 1 = .ok 0 ∧
    AggregationService.get_net_worth
        (DB.ok { snapshots := [⟨1, 2025, 12, 2000, 2500, 3000, 2500⟩], transactions := [] })
        2026 1 = 0 :=
  period_queries_zero_on_empty_month
    { snapshots := [⟨1, 2025, 12, 2000, 2500, 3000, 2500⟩], transactions := [] } 2026 1
    (by intro s hs; simp at hs; subst hs; simp)

/-- C4 counterexample: `get_total_balance_for_month` — one of the
period-total queries the claim covers — propagates a storage-layer error
instead of returning its zero default. -/
theorem snapshot_query_propagates_error_counterexample :
    SnapshotService.get_total_balance_for_month DB.down 2025 1 =
      Except.error DBError.storageError := rfl

/-- C4 amended: on a storage-layer error the six `AggregationService`
methods degrade to zero/empty results instead of raising (the composite
methods return the zero values their guarded inner calls produce), while
the period-total queries implemented on `SnapshotService`
(`get_total_balance_for_month`, `get_total_expenses_for_month`,
`get_total_income_for_month`, `get_current_total_balance`,
`get_balance_trend`) have no such guard and propagate the error. -/
theorem aggregation_error_defaults (year month : Int) (tm : Rat) (acct : Option Int)
    (n : Nat) (mo : Option Int) :
    AggregationService.get_monthly_totals DB.down year month =
      { total_income := 0, total_expense := 0, net_savings := 0 } ∧
    AggregationService.get_net_worth DB.down year month = 0 ∧
    AggregationService.get_category_aggregates DB.down year mo = [] ∧
    AggregationService.detect_anomalies DB.down year month tm = [] ∧
    AggregationService.get_month_over_month_delta DB.down year month =
      { income_delta := 0, expense_delta := 0, net_worth_delta := 0,
        income_pct_change := 0, expense_pct_change := 0, net_worth_pct_change := 0,
        previous_month := some (if month = 1 then 12 else month - 1),
        previous_year := some (if month = 1 then year - 1 else year) } ∧
    AggregationService.get_yearly_summary DB.down year =
      { year := year, total_income := 0, total_expense := 0, net_savings := 0,
        monthly_data := (List.range 12).map (fun i =>
          { month := (i : Int) + 1, income := 0, expense := 0,
            net_savings := 0, net_worth := 0 }),
        top_expense_categories := [] } ∧
    SnapshotService.get_total_balance_for_month DB.down year month =
      .error .storageError ∧
    SnapshotService.get_total_expenses_for_month DB.down year month =
      .error .storageError ∧
    SnapshotService.get_total_income_for_month DB.down year month =
      .error .storageError ∧
    SnapshotService.get_current_total_balance DB.down = .error .storageError ∧
    SnapshotService.get_balance_trend DB.down acct n = .error .storageError := by
  refine ⟨rfl, rfl, rfl, rfl, ?_, ?_, rfl, rfl, rfl, rfl, rfl⟩
  · simp [AggregationService.get_month_over_month_delta,
      AggregationService.get_monthly_totals, AggregationService.get_net_worth, DB.query]
  · have hzero : ∀ (α : Type) (l : List α), (l.map (fun _ => (0 : Rat))).sum = 0 := by
      intro α l
      induction l with
      | nil => simp
      | cons a t ih => simp [ih]
    simp [AggregationService.get_yearly_summary, AggregationService.get_monthly_totals,
      AggregationService.get_net_worth, AggregationService.get_category_aggregates,
      DB.query, List.map_map, Function.comp_def, hzero]

/-- C2 counterexample: adding a transaction to an empty store changes the
result of `FinanceMCPDatabase.get_balance`, so not every balance-reporting
operation is computed exclusively from snapshot rows. -/
theorem mcp_balance_uses_transactions_counterexample :
    FinanceMCPDatabase.get_balance
        (SnapshotService.add_transaction { snapshots := [], transactions := [] }
          1 ⟨2025, 1, 15⟩ 100 ("salary") ("pay")).1 ≠
      FinanceMCPDatabase.get_balance { snapshots := [], transactions := [] } := by
  simp [FinanceMCPDatabase.get_balance, SnapshotService.add_transaction]

/-- C2 amended: the snapshot-layer balance operations
(`get_current_total_balance`, `get_total_balance_for_month`,
`get_net_worth`) read only snapshot rows and are unchanged by adding or
deleting any transaction; but the legacy balance reporters
`FinanceMCPDatabase.get_balance` and `FinanceMCP.get_balance` sum
transaction amounts, so adding a transaction shifts their result by the
transaction's amount. -/
theorem balances_read_only_snapshots (store : Store) (account_id : Int) (date : Date)
    (amount : Rat) (category description : String) (tid : Int) (year month : Int)
    (stm : FinanceMCPState) (mdate : String) (mcur : Option String) :
    (SnapshotService.get_current_total_balance
        (DB.ok (SnapshotService.add_transaction store account_id date amount
          category description).1) =
      SnapshotService.get_current_total_balance (DB.ok store)) ∧
    (SnapshotService.get_current_total_balance
        (DB.ok (FinanceMCPDatabase.delete_transaction store tid).1) =
      SnapshotService.get_current_total_balance (DB.ok store)) ∧
    (SnapshotService.get_total_balance_for_month
        (DB.ok (SnapshotService.add_transaction store account_id date amount
          category description).1) year month =
      SnapshotService.get_total_balance_for_month (DB.ok store) year month) ∧
    (SnapshotService.get_total_balance_for_month
        (DB.ok (FinanceMCPDatabase.delete_transaction store tid).1) year month =
      SnapshotService.get_total_balance_for_month (DB.ok store) year month) ∧
    (AggregationService.get_net_worth
        (DB.ok (SnapshotService.add_transaction store account_id date amount
          category description).1) year month =
      AggregationService.get_net_worth (DB.ok store) year month) ∧
    (AggregationService.get_net_worth
        (DB.ok (FinanceMCPDatabase.delete_transaction store tid).1) year month =
      AggregationService.get_net_worth (DB.ok store) year month) ∧
    (FinanceMCPDatabase.get_balance
        (SnapshotService.add_transaction store account_id date amount
          category description).1 =
      FinanceMCPDatabase.get_balance store + amount) ∧
    (FinanceMCP.get_balance
        (FinanceMCP.add_transaction stm amount category description mdate mcur).1 =
      FinanceMCP.get_balance stm + amount) := by
  have hadd : (SnapshotService.add_transaction store account_id date amount
      category description).1.snapshots = store.snapshots := rfl
  have hdel : (FinanceMCPDatabase.delete_transaction store tid).1.snapshots =
      store.snapshots := by
    unfold FinanceMCPDatabase.delete_transaction
    split <;> rfl
  refine ⟨?_, ?_, ?_, ?_, ?_, ?_, ?_, ?_⟩
  · simp only [SnapshotService.get_current_total_balance, DB.query, Except.map, hadd,
      SnapshotService.maxPeriod]
  · simp only [SnapshotService.get_current_total_balance, DB.query, Except.map, hdel,
      SnapshotService.maxPeriod]
  · simp only [SnapshotService.get_total_balance_for_month, DB.query, Except.map, hadd]
  · simp only [SnapshotService.get_total_balance_for_month, DB.query, Except.map, hdel]
  · simp only [AggregationService.get_net_worth, DB.query, hadd]
  · simp only [AggregationService.get_net_worth, DB.query, hdel]
  · simp [FinanceMCPDatabase.get_balance, SnapshotService.add_transaction]
  · simp [FinanceMCP.get_balance, FinanceMCP.add_transaction]

/-- C5: for every month in [1,12], `get_month_over_month_delta` compares
against (year, month-1) — or (year-1, 12) when month is 1 — and each
percentage change is delta/previous*100 when the previous value is
strictly positive and exactly 0 when the previous value is zero or
negative. -/
theorem mom_delta_previous_period (db : DB) (year month : Int)
    (h1 : 1 ≤ month) (h2 : month ≤ 12) :
    (AggregationService.get_month_over_month_delta db year month).previous_year =
      some (if month = 1 then year - 1 else year) ∧
    (AggregationService.get_month_over_month_delta db year month).previous_month =
      some (if month = 1 then 12 else month - 1) ∧
    (AggregationService.get_month_over_month_delta db year month).income_delta =
      (AggregationService.get_monthly_totals db year month).total_income -
        (AggregationService.get_monthly_totals db (if month = 1 then year - 1 else year)
          (if month = 1 then 12 else month - 1)).total_income ∧
    (AggregationService.get_month_over_month_delta db year month).expense_delta =
      (AggregationService.get_monthly_totals db year month).total_expense -
        (AggregationService.get_monthly_totals db (if month = 1 then year - 1 else year)
          (if month = 1 then 12 else month - 1)).total_expense ∧
    (AggregationService.get_month_over_month_delta db year month).net_worth_delta =
      AggregationService.get_net_worth db year month -
        AggregationService.get_net_worth db (if month = 1 then year - 1 else year)
          (if month = 1 then 12 else month - 1) ∧
    (0 < (AggregationService.get_monthly_totals db (if month = 1 then year - 1 else year)
        (if month = 1 then 12 else month - 1)).total_income →
      (AggregationService.get_month_over_month_delta db year month).income_pct_change =
        (AggregationService.get_month_over_month_delta db year month).income_delta /
          (AggregationService.get_monthly_totals db (if month = 1 then year - 1 else year)
            (if month = 1 then 12 else month - 1)).total_income * 100) ∧
    ((AggregationService.get_monthly_totals db (if month = 1 then year - 1 else year)
        (if month = 1 then 12 else month - 1)).total_income ≤ 0 →
      (AggregationService.get_month_over_month_delta db year month).income_pct_change = 0) ∧
    (0 < (AggregationService.get_monthly_totals db (if month = 1 then year - 1 else year)
        (if month = 1 then 12 else month - 1)).total_expense →
      (AggregationService.get_month_over_month_delta db year month).expense_pct_change =
        (AggregationService.get_month_over_month_delta db year month).expense_delta /
          (AggregationService.get_monthly_totals db (if month = 1 then year - 1 else year)
            (if month = 1 then 12 else month - 1)).total_expense * 100) ∧
    ((AggregationService.get_monthly_totals db (if month = 1 then year - 1 else year)
        (if month = 1 then 12 else month - 1)).total_expense ≤ 0 →
      (AggregationService.get_month_over_month_delta db year month).expense_pct_change = 0) ∧
    (0 < AggregationService.get_net_worth db (if month = 1 then year - 1 else year)
        (if month = 1 then 12 else month - 1) →
      (AggregationService.get_month_over_month_delta db year month).net_worth_pct_change =
        (AggregationService.get_month_over_month_delta db year month).net_worth_delta /
          AggregationService.get_net_worth db (if month = 1 then year - 1 else year)
            (if month = 1 then 12 else month - 1) * 100) ∧
    (AggregationService.get_net_worth db (if month = 1 then year - 1 else year)
        (if month = 1 then 12 else month - 1) ≤ 0 →
      (AggregationService.get_month_over_month_delta db year month).net_worth_pct_change
        = 0) := by
  unfold AggregationService.get_month_over_month_delta
  refine ⟨rfl, rfl, rfl, rfl, rfl, ?_, ?_, ?_, ?_, ?_, ?_⟩ <;> intro hprev <;> simp only []
  · rw [if_pos hprev]
  · rw [if_neg (by exact not_lt.mpr hprev)]
  · rw [if_pos hprev]
  · rw [if_neg (by exact not_lt.mpr hprev)]
  · rw [if_pos hprev]
  · rw [if_neg (by exact not_lt.mpr hprev)]

/-- C5 witness: with snapshots only in December 2024, January 2025 is
compared against (2024, 12); the witness store has income 3000,
expense 2000 and ending balance 2500 in that previous period. -/
theorem mom_delta_previous_period_witness :
    (AggregationService.get_month_over_month_delta
        (DB.ok { snapshots := [⟨1, 2024, 12, 2000, 2500, 3000, 2000⟩], transactions := [] })
        2025 1).previous_year = some (if (1 : Int) = 1 then 2025 - 1 else 2025) ∧
    (AggregationService.get_month_over_month_delta
        (DB.ok { snapshots := [⟨1, 2024, 12, 2000, 2500, 3000, 2000⟩], transactions := [] })
        2025 1).previous_month = some (if (1 : Int) = 1 then 12 else 1 - 1) ∧
    (AggregationService.get_month_over_month_delta
        (DB.ok { snapshots := [⟨1, 2024, 12, 2000, 2500, 3000, 2000⟩], transactions := [] })
        2025 1).income_delta =
      (AggregationService.get_monthly_totals
          (DB.ok { snapshots := [⟨1, 2024, 12, 2000, 2500, 3000, 2000⟩], transactions := [] })
          2025 1).total_income -
        (AggregationService.get_monthly_totals
          (DB.ok { snapshots := [⟨1, 2024, 12, 2000, 2500, 3000, 2000⟩], transactions := [] })
          (if (1 : Int) = 1 then 2025 - 1 else 2025)
          (if (1 : Int) = 1 then 12 else 1 - 1)).total_income :=
  let h := mom_delta_previous_period
    (DB.ok { snapshots := [⟨1, 2024, 12, 2000, 2500, 3000, 2000⟩], transactions := [] })
    2025 1 (by decide) (by decide)
  ⟨h.1, h.2.1, h.2.2.1⟩

end Finance
